import Mathlib

/-!
Verification of the demo_iac repository (a Scaleway infrastructure agent).

The development shallowly embeds the three Python source files:
  * `Docker/tools/scaleway_cli.py` — CLI gateway and resource validators,
  * `Docker/langchain_agent.py`   — LLM completion client and tools,
  * `Docker/main.py`              — HTTP endpoints.

External effects (the subprocess, the HTTP transport, `json.loads`) are
passed in as explicit function arguments, so every definition is a pure,
executable translation of the corresponding Python function.  A Python
exception escaping a function is modelled as `Except.error`; a normal
return is `Except.ok` or a plain value.
-/

namespace DemoIac

/-- A single-quote character, used to rebuild the exact Python message
strings without apostrophe literals. -/
def sq : String := String.singleton (Char.ofNat 39)

/-- JSON values as produced by Python `json.loads`.  Numbers are modelled
as integers (no claim depends on fractional numbers). -/
inductive Json where
  | null
  | bool (b : Bool)
  | num (n : Int)
  | str (s : String)
  | arr (elems : List Json)
  | obj (fields : List (String × Json))

/-- Python `dict` lookup for an object built by `json.loads`: with duplicate
keys the last occurrence wins, so we search the reversed field list. -/
def jGet (fields : List (String × Json)) (k : String) : Option Json :=
  (fields.reverse.find? (fun p => p.1 == k)).map (fun p => p.2)

mutual
/-- Python `repr` of a JSON value, used by `str` on containers. -/
def pyRepr : Json → String
  | .null => "None"
  | .bool true => "True"
  | .bool false => "False"
  | .num n => toString n
  | .str s => sq ++ s ++ sq
  | .arr xs => "[" ++ String.intercalate ", " (pyReprList xs) ++ "]"
  | .obj kvs => "\x7b" ++ String.intercalate ", " (pyReprFields kvs) ++ "\x7d"

def pyReprList : List Json → List String
  | [] => []
  | x :: xs => pyRepr x :: pyReprList xs

def pyReprFields : List (String × Json) → List String
  | [] => []
  | (k, v) :: kvs => (sq ++ k ++ sq ++ ": " ++ pyRepr v) :: pyReprFields kvs
end

/-- Python `str()` as applied by an f-string interpolation. -/
def pyStr : Json → String
  | .str s => s
  | j => pyRepr j

/-- Characters removed by Python `str.strip()` (the common whitespace;
exotic unicode whitespace is out of scope of every claim). -/
def isPySpace (c : Char) : Bool :=
  c == ' ' || c == '\n' || c == '\t' || c == '\r'

/-- Python `str.strip()`. -/
def pyStrip (s : String) : String :=
  ⟨((s.data.dropWhile isPySpace).reverse.dropWhile isPySpace).reverse⟩

/-- List-level string prefix test. -/
def listIsPref : List Char → List Char → Bool
  | [], _ => true
  | _ :: _, [] => false
  | a :: as, b :: bs => a == b && listIsPref as bs

/-- Python `str.startswith`. -/
def pyStartsWith (p s : String) : Bool := listIsPref p.data s.data

/-- Python `needle in haystack` on strings (substring containment). -/
def listContains (needle : List Char) : List Char → Bool
  | [] => listIsPref needle []
  | c :: rest => listIsPref needle (c :: rest) || listContains needle (c :: rest).tail

/-- The result of one finished subprocess: its exit code and captured
streams (`subprocess.run(command, capture_output=True, text=True)`). -/
structure ProcResult where
  exitCode : Nat
  stdout : String
  stderr : String
deriving DecidableEq

/-- `run_cli` (scaleway_cli.py lines 10–23).  With `check=True` a non-zero
exit raises `CalledProcessError`, which the function catches itself and
turns into a `CLI Error: `-prefixed string; a zero exit returns the
stripped stdout when non-empty, else the stripped stderr.  The function
never lets the `CalledProcessError` escape. -/
def run_cli (r : ProcResult) : String :=
  if r.exitCode = 0 then
    if pyStrip r.stdout ≠ "" then pyStrip r.stdout else pyStrip r.stderr
  else
    "CLI Error: " ++ (if pyStrip r.stderr ≠ "" then pyStrip r.stderr else pyStrip r.stdout)

/-- The dictionaries returned by the two validators: either a validity
verdict or an error mapping (`\x7b"error": msg\x7d`). -/
inductive VResult where
  | valid
  | invalid (reason : String)
  | err (msg : String)
deriving DecidableEq

/-- `os.getenv` rendering inside an f-string: an unset variable prints as
`None`. -/
def envStr : Option String → String
  | none => "None"
  | some s => s

/-- The argument vector built by `validate_vpc` (lines 33–37).  Note it is
scoped by project id only: no region argument appears. -/
def vpc_list_command (projectId : Option String) : List String :=
  ["scw", "vpc", "vpc", "list", "project-id=" ++ envStr projectId, "--output", "json"]

/-- The argument vector built by `validate_object_storage` (lines 65–69). -/
def bucket_list_command (region : String) : List String :=
  ["scw", "object", "bucket", "list", "region", region, "--output", "json"]

/-- Message of `validate_vpc` when the `cidr` parameter is falsy. -/
def missingCidrMsg : String :=
  "Missing " ++ sq ++ "cidr" ++ sq ++ " parameter for VPC validation."

/-- Message of `validate_object_storage` when the `name` parameter is falsy. -/
def missingNameMsg : String :=
  "Missing " ++ sq ++ "name" ++ sq ++ " parameter for bucket validation."

/-- Tail of the VPC conflict reason after the CIDR itself. -/
def vpcReasonTail (v : Json) : String :=
  " already used in private network " ++ sq ++ pyStr v ++ sq

/-- `f"CIDR {cidr} already used in private network '{net['name']}'"`. -/
def vpcReason (cidr : String) (v : Json) : String :=
  "CIDR " ++ cidr ++ vpcReasonTail v

/-- `f"Bucket '{name}' already exists in region {region}"`. -/
def bucketReason (name region : String) : String :=
  "Bucket " ++ sq ++ name ++ sq ++ " already exists in region " ++ region

/-- `subnet.get("cidr") == cidr` for an object-shaped subnet: only a JSON
string can equal a Python string. -/
def subnetMatches (cidr : String) (subnet : List (String × Json)) : Bool :=
  match jGet subnet "cidr" with
  | some (.str c) => c == cidr
  | _ => false

/-- The inner `for subnet in net.get("subnets", [])` loop body of
`validate_vpc` (lines 47–52), run over a list of subnet values.  A
non-dict subnet makes `subnet.get` raise `AttributeError`; a matching
subnet whose network lacks a `name` key raises `KeyError` while building
the reason f-string.  Both are swallowed by the surrounding
`except Exception` and become the `JSON parsing error` mapping, so they
are surfaced here as `Except.error`. -/
def scanSubnets (cidr : String) (netFields : List (String × Json)) :
    List Json → Except String (Option String)
  | [] => Except.ok none
  | subnet :: rest =>
    match subnet with
    | .obj sf =>
      if subnetMatches cidr sf then
        match jGet netFields "name" with
        | some v => Except.ok (some (vpcReason cidr v))
        | none => Except.error ("KeyError: " ++ sq ++ "name" ++ sq)
      else scanSubnets cidr netFields rest
    | _ => Except.error "AttributeError: subnet has no attribute get"

/-- Python iteration over the value of `net.get("subnets", [])`: a list
iterates its elements; an empty string or empty dict iterates zero times;
a non-empty string or dict yields strings whose `.get` raises
`AttributeError`; anything else raises `TypeError`. -/
def iterSubnets (cidr : String) (netFields : List (String × Json)) :
    Json → Except String (Option String)
  | .arr ss => scanSubnets cidr netFields ss
  | .str s => if s = "" then Except.ok none
              else Except.error "AttributeError: subnet has no attribute get"
  | .obj kvs =>
      match kvs with
      | [] => Except.ok none
      | _ :: _ => Except.error "AttributeError: subnet has no attribute get"
  | _ => Except.error "TypeError: subnets value is not iterable"

/-- The outer `for net in networks` loop of `validate_vpc` (lines 46–52):
a non-dict network makes `net.get` raise `AttributeError`. -/
def scanNets (cidr : String) : List Json → Except String (Option String)
  | [] => Except.ok none
  | net :: rest =>
    match net with
    | .obj nf =>
      match iterSubnets cidr nf ((jGet nf "subnets").getD (.arr [])) with
      | Except.ok (some r) => Except.ok (some r)
      | Except.ok none => scanNets cidr rest
      | Except.error e => Except.error e
    | _ => Except.error "AttributeError: net has no attribute get"

/-- Python iteration over the value returned by `json.loads` in
`validate_vpc`: same iteration semantics as `iterSubnets`. -/
def iterNetworks (cidr : String) : Json → Except String (Option String)
  | .arr ns => scanNets cidr ns
  | .str s => if s = "" then Except.ok none
              else Except.error "AttributeError: net has no attribute get"
  | .obj kvs =>
      match kvs with
      | [] => Except.ok none
      | _ :: _ => Except.error "AttributeError: net has no attribute get"
  | _ => Except.error "TypeError: networks value is not iterable"

/-- Parameter lookup, `params.get(key)`.  Parameter values are modelled as
strings, which covers every claim. -/
def lookupParam (params : List (String × String)) (k : String) : Option String :=
  (params.reverse.find? (fun p => p.1 == k)).map (fun p => p.2)

/-- `validate_vpc` (scaleway_cli.py lines 26–55).  `cli` models the
subprocess boundary (argument vector to finished process) and `loads`
models `json.loads` (`Except.error` is a raised `JSONDecodeError`, whose
message the `except Exception` handler embeds in the error mapping).
The Python code binds `region = params.get("region", "fr-par")` but never
uses it, so the binding is omitted.  A falsy (absent or empty) `cidr`
short-circuits to an error mapping. -/
def validate_vpc (params : List (String × String)) (projectId : Option String)
    (cli : List String → ProcResult) (loads : String → Except String Json) : VResult :=
  let cidr := (lookupParam params "cidr").getD ""
  if cidr = "" then VResult.err missingCidrMsg
  else
    let output := run_cli (cli (vpc_list_command projectId))
    if pyStartsWith "CLI Error" output then VResult.err output
    else
      match loads output with
      | Except.error e => VResult.err ("JSON parsing error: " ++ e)
      | Except.ok j =>
        match iterNetworks cidr j with
        | Except.ok none => VResult.valid
        | Except.ok (some r) => VResult.invalid r
        | Except.error e => VResult.err ("JSON parsing error: " ++ e)

/-- `bucket.get("name") == name` for an object-shaped bucket. -/
def bucketNamed (name : String) : Json → Bool
  | .obj bf =>
    match jGet bf "name" with
    | some (.str n) => n == name
    | _ => false
  | _ => false

/-- The `for bucket in buckets` loop of `validate_object_storage`
(lines 77–82). -/
def scanBuckets (name region : String) : List Json → Except String (Option String)
  | [] => Except.ok none
  | b :: rest =>
    match b with
    | .obj bf =>
      match jGet bf "name" with
      | some (.str n) =>
        if n == name then Except.ok (some (bucketReason name region))
        else scanBuckets name region rest
      | _ => scanBuckets name region rest
    | _ => Except.error "AttributeError: bucket has no attribute get"

/-- Python iteration over the parsed bucket listing. -/
def iterBuckets (name region : String) : Json → Except String (Option String)
  | .arr bs => scanBuckets name region bs
  | .str s => if s = "" then Except.ok none
              else Except.error "AttributeError: bucket has no attribute get"
  | .obj kvs =>
      match kvs with
      | [] => Except.ok none
      | _ :: _ => Except.error "AttributeError: bucket has no attribute get"
  | _ => Except.error "TypeError: buckets value is not iterable"

/-- `validate_object_storage` (scaleway_cli.py lines 58–85). -/
def validate_object_storage (params : List (String × String))
    (cli : List String → ProcResult) (loads : String → Except String Json) : VResult :=
  let name := (lookupParam params "name").getD ""
  let region := (lookupParam params "region").getD "fr-par"
  if name = "" then VResult.err missingNameMsg
  else
    let output := run_cli (cli (bucket_list_command region))
    if pyStartsWith "CLI Error" output then VResult.err output
    else
      match loads output with
      | Except.error e => VResult.err ("JSON parsing error: " ++ e)
      | Except.ok j =>
        match iterBuckets name region j with
        | Except.ok none => VResult.valid
        | Except.ok (some r) => VResult.invalid r
        | Except.error e => VResult.err ("JSON parsing error: " ++ e)

/-- `validate_resource` (scaleway_cli.py lines 88–96). -/
def validate_resource (resource_type : String) (params : List (String × String))
    (projectId : Option String) (cli : List String → ProcResult)
    (loads : String → Except String Json) : VResult :=
  if resource_type = "vpc" then validate_vpc params projectId cli loads
  else if resource_type = "bucket" then validate_object_storage params cli loads
  else VResult.err ("Validation for resource type " ++ sq ++ resource_type ++ sq
        ++ " not implemented.")

/-- A chat message of the request payload built by `DeepSeekLLM._call`. -/
structure ChatMessage where
  role : String
  content : String
deriving DecidableEq

/-- The request payload of `DeepSeekLLM._call` (langchain_agent.py
lines 38–46). -/
structure ChatPayload where
  model : String
  messages : List ChatMessage
  temperature : Rat
  maxTokens : Nat
deriving DecidableEq

/-- The system prompt of `DeepSeekLLM._call` (lines 27–36). -/
def deepseek_system_prompt : String :=
  "You are an infrastructure automation agent for Scaleway.\n"
  ++ "Always reason using tools.\n"
  ++ "Use this structure:\n"
  ++ "Thought: what to do\n"
  ++ "Action: name of the tool\n"
  ++ "Action Input: the JSON input\n"
  ++ "Observation: result\n"
  ++ "Final Answer: the summary or output."

/-- The payload built from a prompt: fixed system message first, then the
prompt unchanged as the user message, with the configured constants
`temperature = 0.3` and `max_tokens = 512`. -/
def mkPayload (model prompt : String) : ChatPayload :=
  { model := model
    messages := [⟨"system", deepseek_system_prompt⟩, ⟨"user", prompt⟩]
    temperature := 3 / 10
    maxTokens := 512 }

/-- Outcome of `requests.post`: either the call raised (network failure),
or a response arrived with a status code and a body that is or is not
parseable JSON (`response.json()` raises on a non-JSON body). -/
inductive HttpOutcome where
  | raised (msg : String)
  | got (status : Nat) (body : Except String Json)

/-- `response.raise_for_status()` raises exactly for 4xx and 5xx codes. -/
def raiseForStatus (status : Nat) : Bool :=
  400 ≤ status && status < 600

/-- `response_json["choices"][0]["message"]["content"]` — `some` when every
indexing step succeeds, `none` when any step would raise
(`KeyError` / `IndexError` / `TypeError`). -/
def extractContent (j : Json) : Option Json :=
  match j with
  | .obj kvs =>
    match jGet kvs "choices" with
    | some (.arr (c :: _)) =>
      match c with
      | .obj cf =>
        match jGet cf "message" with
        | some (.obj mf) => jGet mf "content"
        | _ => none
      | _ => none
    | _ => none
  | _ => none

/-- `DeepSeekLLM._call` (langchain_agent.py lines 21–54).  `http` models
the transport: it receives the payload that was posted and yields the
outcome.  `Except.error` models an escaping Python exception — the method
catches nothing: `requests.post` failures, `raise_for_status`,
`response.json()` and the field indexing all raise through it. -/
def deepseek_call (prompt model : String) (http : ChatPayload → HttpOutcome) :
    Except String Json :=
  match http (mkPayload model prompt) with
  | HttpOutcome.raised m => Except.error ("RequestException: " ++ m)
  | HttpOutcome.got status body =>
    if raiseForStatus status then
      Except.error ("HTTPError: status " ++ toString status)
    else
      match body with
      | Except.error m => Except.error ("JSONDecodeError: " ++ m)
      | Except.ok j =>
        match extractContent j with
        | some v => Except.ok v
        | none => Except.error "KeyError: unexpected response shape"

/-- The instruction `generate_terraform_code` prepends (lines 85–88). -/
def terraform_instruction : String :=
  "Respond ONLY with valid Terraform code — no explanation, no Markdown, no commentary.\n"
  ++ "Only output clean provider/resource blocks."

/-- `generate_terraform_code` (langchain_agent.py lines 79–90): builds the
full prompt and calls the LLM.  There is no try/except: whatever
`DeepSeekLLM._call` raises escapes this tool handler. -/
def generate_terraform_code (prompt model : String)
    (http : ChatPayload → HttpOutcome) : Except String Json :=
  deepseek_call (terraform_instruction ++ "\n\n" ++ prompt) model http

/-- Return value of `list_resources`: `\x7b"items": output\x7d` or
`\x7b"error": msg\x7d`. -/
inductive LResult where
  | items (raw : String)
  | err (msg : String)
deriving DecidableEq

/-- `list_resources` (langchain_agent.py lines 62–76).  The unsupported
branch returns the error mapping before any CLI work; the try/except
around `run_cli` can never fire in this model because `run_cli` itself
never raises for a process that ran. -/
def list_resources (resource_type region : String) (projectId : Option String)
    (cli : List String → ProcResult) : LResult :=
  if resource_type = "vpc" then
    LResult.items (run_cli (cli
      ["scw", "vpc", "vpc", "list", "project-id=" ++ envStr projectId,
       "region=" ++ region, "--output", "json"]))
  else if resource_type = "bucket" then
    LResult.items (run_cli (cli
      ["scw", "object", "bucket", "list", "region=" ++ region,
       "project-id=" ++ envStr projectId, "--output", "json"]))
  else
    LResult.err ("Unsupported resource type: " ++ resource_type)

/-- Outcome of one agent run. -/
inductive RunOutcome where
  | finalAnswer (text : String)
  | exhausted
deriving DecidableEq

/-- Modelled from the spec: whether a completion contains a Final Answer
(spec 4.1 step 2b, "Parse the text for ... a Final Answer line"); the
repository delegates this parsing to the langchain library, which is not
part of src/. -/
def containsFinalAnswer (s : String) : Bool :=
  listContains "Final Answer:".data s.data

/-- Modelled from the spec: the bounded agent loop (spec 4.1).  The loop
itself lives in the langchain library (`initialize_agent` /
`AgentExecutor`), not in this repository; `langchain_agent.get_agent`
only configures it with `max_iterations=3`.  Each iteration issues
exactly one completion call (`complete n` is the n-th completion); a
completion with a Final Answer ends the run successfully, and exhausting
the budget ends it as `exhausted`.  The second component counts the
completion calls issued. -/
def agentSteps (complete : Nat → String) : Nat → Nat → RunOutcome × Nat
  | 0, calls => (RunOutcome.exhausted, calls)
  | fuel + 1, calls =>
    let text := complete calls
    if containsFinalAnswer text then (RunOutcome.finalAnswer text, calls + 1)
    else agentSteps complete fuel (calls + 1)

/-- `max_iterations=3` passed to `initialize_agent`
(langchain_agent.py line 142). -/
def max_iterations : Nat := 3

/-- Modelled from the spec: one agent run (spec 4.1, `run(prompt)`),
returning the outcome and the number of completion calls issued. -/
def agent_run (complete : Nat → String) : RunOutcome × Nat :=
  agentSteps complete max_iterations 0

/-- A Python runtime value as it appears inside `agent_api`: the handler
expects a dict, but an un-awaited async method yields a coroutine
object. -/
inductive PyV where
  | strv (s : String)
  | dict (kvs : List (String × String))
  | coroutine (desc : String)

/-- What the caller of the `/agent` endpoint observes: a JSON body, or an
unhandled exception escaping the handler (surfaced by FastAPI as a raw
500 fault). -/
inductive ApiResponse where
  | jsonBody (kvs : List (String × String))
  | unhandledFault (excMsg : String)
deriving DecidableEq

/-- The exact failure of `body.get("prompt")` when `body` is a coroutine
object. -/
def coroutineGetMsg : String :=
  "AttributeError: " ++ sq ++ "coroutine" ++ sq ++ " object has no attribute "
  ++ sq ++ "get" ++ sq

/-- Python attribute access `value.get(key)`: only dicts have `get`. -/
def pyGetItem (v : PyV) (k : String) : Except String (Option String) :=
  match v with
  | PyV.dict kvs => Except.ok (lookupParam kvs k)
  | PyV.coroutine _ => Except.error coroutineGetMsg
  | PyV.strv _ => Except.error ("AttributeError: str object has no attribute " ++ k)

/-- `request.json()` as called in `agent_api` (main.py line 40):
`starlette.Request.json` is an `async def`, and `agent_api` is a plain
`def` that calls it without `await`, so the expression evaluates to the
coroutine object itself — independent of the request body the client
sent. -/
def request_json_unawaited (_requestBody : List (String × String)) : PyV :=
  PyV.coroutine "Request.json"

/-- `agent_api` (main.py lines 38–48), the POST /agent handler.
`runAgent` models `run_agent` (`Except.error` is a raised exception,
which the handler catches into an error body).  The `prompt` truthiness
test and both response shapes are translated as written; the try/except
covers only the `run_agent` call, not the body access above it. -/
def agent_api (requestBody : List (String × String))
    (runAgent : String → Except String String) : ApiResponse :=
  match pyGetItem (request_json_unawaited requestBody) "prompt" with
  | Except.error e => ApiResponse.unhandledFault e
  | Except.ok none => ApiResponse.jsonBody [("error", "Missing prompt")]
  | Except.ok (some p) =>
    if p = "" then ApiResponse.jsonBody [("error", "Missing prompt")]
    else
      match runAgent p with
      | Except.ok r => ApiResponse.jsonBody [("result", r)]
      | Except.error e => ApiResponse.jsonBody [("error", e)]

/-! ## Claim-side predicates

These definitions follow the words of the spec and of the claims; they are
compared with the source-side definitions above. -/

/-- A JSON object. -/
def isObjB : Json → Bool
  | .obj _ => true
  | _ => false

/-- Spec 6: "each VPC object has a `name` and a `subnets` list of objects
with a `cidr` field" — the `subnets` key may be absent (`net.get` has a
default), but when present it must be a list of objects; the object must
carry a `name`. -/
def netWF : Json → Bool
  | .obj kvs =>
    (jGet kvs "name").isSome &&
    (match jGet kvs "subnets" with
     | none => true
     | some (.arr ss) => ss.all isObjB
     | some _ => false)
  | _ => false

/-- A well-formed VPC listing: a JSON array of well-formed VPC objects. -/
def wfVpcListing : Json → Bool
  | .arr ns => ns.all netWF
  | _ => false

/-- Claim side: a subnet value whose `cidr` field equals the given CIDR. -/
def subnetHasCidr (cidr : String) : Json → Bool
  | .obj sf => subnetMatches cidr sf
  | _ => false

/-- Claim side: a network one of whose subnets carries the CIDR. -/
def netHasCidr (cidr : String) : Json → Bool
  | .obj kvs =>
    (match jGet kvs "subnets" with
     | some (.arr ss) => ss.any (subnetHasCidr cidr)
     | _ => false)
  | _ => false

/-- Claim side: the parsed listing contains a network with some subnet
whose `cidr` equals the given CIDR. -/
def listingHasCidr (cidr : String) : Json → Bool
  | .arr ns => ns.any (netHasCidr cidr)
  | _ => false

/-- A well-formed bucket listing: a JSON array of objects (spec 6: "each
bucket object has a `name` field" — `bucket.get` tolerates its absence). -/
def wfBucketListing : Json → Bool
  | .arr bs => bs.all isObjB
  | _ => false

/-- Claim side: a bucket object with the given name is present. -/
def listingHasBucket (name : String) : Json → Bool
  | .arr bs => bs.any (bucketNamed name)
  | _ => false

/-- Claim side (C7): a successful HTTP status per the spec, which says
"non-2xx status" must be treated as an error. -/
def is2xx (status : Nat) : Bool :=
  200 ≤ status && status < 300

/-- Claim side (C7/C4): the upstream completion outcomes on which the code
raises: transport failure, 4xx/5xx status, unparseable body, or a body
lacking the `choices[0].message.content` field. -/
def upstreamFailure : HttpOutcome → Bool
  | HttpOutcome.raised _ => true
  | HttpOutcome.got st body =>
    raiseForStatus st ||
    (match body with
     | Except.error _ => true
     | Except.ok j => (extractContent j).isNone)

/-- A synthetic well-formed completion response carrying content `s`
(claim C8). -/
def mkResponse (s : String) : Json :=
  Json.obj [("choices", Json.arr [Json.obj [("message",
    Json.obj [("content", Json.str s)])]])]

/-! ## Helper lemmas -/

/-- String concatenation acts as concatenation of the character data. -/
theorem data_append : ∀ (a b : String), (a ++ b).data = a.data ++ b.data :=
  fun ⟨_⟩ ⟨_⟩ => rfl

/-- The agent loop on a completion with no Final Answer consumes one unit
of fuel and one completion call. -/
theorem agentSteps_step_neg (complete : Nat → String) (fuel calls : Nat)
    (h : containsFinalAnswer (complete calls) = false) :
    agentSteps complete (fuel + 1) calls = agentSteps complete fuel (calls + 1) := by
  simp [agentSteps, h]

/-- The number of completion calls issued is bounded by the starting count
plus the fuel. -/
theorem agentSteps_calls_le (complete : Nat → String) (fuel : Nat) :
    ∀ calls, (agentSteps complete fuel calls).2 ≤ calls + fuel := by
  induction fuel with
  | zero => intro calls; simp [agentSteps]
  | succ n ih =>
    intro calls
    by_cases h : containsFinalAnswer (complete calls) = true
    · simp [agentSteps, h]
    · rw [agentSteps_step_neg complete n calls (by simpa using h)]
      calc (agentSteps complete n (calls + 1)).2 ≤ (calls + 1) + n := ih (calls + 1)
        _ = calls + (n + 1) := by omega

/-- `DeepSeekLLM._call` raises exactly on the upstream failures the code
distinguishes: transport error, 4xx/5xx status, unparseable body, or a
body lacking `choices[0].message.content`. -/
theorem deepseek_error_iff (prompt model : String) (out : HttpOutcome) :
    (∃ e, deepseek_call prompt model (fun _ => out) = Except.error e)
      ↔ upstreamFailure out = true := by
  cases out with
  | raised m => simp [deepseek_call, upstreamFailure]
  | got st body =>
    by_cases hst : raiseForStatus st = true
    · simp [deepseek_call, upstreamFailure, hst]
    · have hst' : raiseForStatus st = false := by simpa using hst
      cases body with
      | error m => simp [deepseek_call, upstreamFailure, hst']
      | ok j =>
        cases hx : extractContent j with
        | none => simp [deepseek_call, upstreamFailure, hst', hx]
        | some v => simp [deepseek_call, upstreamFailure, hst', hx]

/-- On a 2xx-free-of-error response of the expected shape, the call
returns the content string. -/
theorem deepseek_ok_of_wellformed (prompt model : String) (s : String) (st : Nat)
    (hst : raiseForStatus st = false) :
    deepseek_call prompt model (fun _ => HttpOutcome.got st (Except.ok (mkResponse s)))
      = Except.ok (Json.str s) := by
  simp [deepseek_call, hst, extractContent, mkResponse, jGet]

/-- Over a list of object-shaped subnets of a network that carries a
`name`, the subnet scan reports a conflict exactly when some subnet
carries the CIDR. -/
theorem scanSubnets_spec (cidr : String) (nf : List (String × Json)) (v : Json)
    (hname : jGet nf "name" = some v) :
    ∀ ss : List Json, ss.all isObjB = true →
      scanSubnets cidr nf ss =
        Except.ok (if ss.any (subnetHasCidr cidr) then some (vpcReason cidr v) else none) := by
  intro ss
  induction ss with
  | nil => intro _; rfl
  | cons s rest ih =>
    intro hss
    rw [List.all_cons, Bool.and_eq_true] at hss
    obtain ⟨h1, h2⟩ := hss
    cases s with
    | obj sf =>
      by_cases hm : subnetMatches cidr sf = true
      · simp [scanSubnets, hm, hname, subnetHasCidr]
      · have hm' : subnetMatches cidr sf = false := by simpa using hm
        simp [scanSubnets, hm', subnetHasCidr, ih h2]
    | null => simp [isObjB] at h1
    | bool b => simp [isObjB] at h1
    | num n => simp [isObjB] at h1
    | str s => simp [isObjB] at h1
    | arr xs => simp [isObjB] at h1

/-- Over a list of well-formed networks, the network scan reports a
conflict whose reason embeds the CIDR exactly when some network has a
subnet carrying it. -/
theorem scanNets_spec (cidr : String) (ns : List Json) (h : ns.all netWF = true) :
    (ns.any (netHasCidr cidr) = true →
      ∃ r, scanNets cidr ns = Except.ok (some r) ∧ ∃ post, r = "CIDR " ++ cidr ++ post) ∧
    (ns.any (netHasCidr cidr) = false → scanNets cidr ns = Except.ok none) := by
  induction ns with
  | nil => exact ⟨fun hAny => by simp at hAny, fun _ => rfl⟩
  | cons net rest ih =>
    rw [List.all_cons, Bool.and_eq_true] at h
    obtain ⟨h1, h2⟩ := h
    obtain ⟨ihT, ihF⟩ := ih h2
    cases net with
    | obj nf =>
      rw [netWF, Bool.and_eq_true] at h1
      obtain ⟨hname', hsub⟩ := h1
      obtain ⟨v, hv⟩ := Option.isSome_iff_exists.mp hname'
      cases hsg : jGet nf "subnets" with
      | none =>
        have hstep : scanNets cidr (Json.obj nf :: rest) = scanNets cidr rest := by
          simp [scanNets, hsg, iterSubnets, scanSubnets]
        have hnet : netHasCidr cidr (Json.obj nf) = false := by
          simp [netHasCidr, hsg]
        constructor
        · intro hAny
          rw [List.any_cons, hnet, Bool.false_or] at hAny
          obtain ⟨r, hr, hpost⟩ := ihT hAny
          exact ⟨r, by rw [hstep]; exact hr, hpost⟩
        · intro hAny
          rw [List.any_cons, hnet, Bool.false_or] at hAny
          rw [hstep]; exact ihF hAny
      | some sv =>
        rw [hsg] at hsub
        cases sv with
        | arr ss =>
          have hss : ss.all isObjB = true := by simpa using hsub
          have hscan := scanSubnets_spec cidr nf v hv ss hss
          have hnet : netHasCidr cidr (Json.obj nf) = ss.any (subnetHasCidr cidr) := by
            simp [netHasCidr, hsg]
          by_cases hAnyS : ss.any (subnetHasCidr cidr) = true
          · have hstep : scanNets cidr (Json.obj nf :: rest)
                = Except.ok (some (vpcReason cidr v)) := by
              simp [scanNets, hsg, iterSubnets, hscan, hAnyS]
            constructor
            · intro _
              exact ⟨vpcReason cidr v, hstep, vpcReasonTail v, rfl⟩
            · intro hAny
              rw [List.any_cons, hnet, hAnyS] at hAny
              simp at hAny
          · have hAnyS' : ss.any (subnetHasCidr cidr) = false := by simpa using hAnyS
            have hstep : scanNets cidr (Json.obj nf :: rest) = scanNets cidr rest := by
              simp [scanNets, hsg, iterSubnets, hscan, hAnyS']
            constructor
            · intro hAny
              rw [List.any_cons, hnet, hAnyS', Bool.false_or] at hAny
              obtain ⟨r, hr, hpost⟩ := ihT hAny
              exact ⟨r, by rw [hstep]; exact hr, hpost⟩
            · intro hAny
              rw [List.any_cons, hnet, hAnyS', Bool.false_or] at hAny
              rw [hstep]; exact ihF hAny
        | null => simp at hsub
        | bool b => simp at hsub
        | num n => simp at hsub
        | str s => simp at hsub
        | obj kvs => simp at hsub
    | null => simp [netWF] at h1
    | bool b => simp [netWF] at h1
    | num n => simp [netWF] at h1
    | str s => simp [netWF] at h1
    | arr xs => simp [netWF] at h1

/-- Over a list of object-shaped buckets, the bucket scan reports a
conflict exactly when some bucket carries the name. -/
theorem scanBuckets_spec (name region : String) (bs : List Json)
    (hwf : bs.all isObjB = true) :
    scanBuckets name region bs =
      Except.ok (if bs.any (bucketNamed name) then some (bucketReason name region) else none) := by
  induction bs with
  | nil => rfl
  | cons b rest ih =>
    rw [List.all_cons, Bool.and_eq_true] at hwf
    obtain ⟨h1, h2⟩ := hwf
    cases b with
    | obj bf =>
      cases hg : jGet bf "name" with
      | none => simp [scanBuckets, hg, bucketNamed, ih h2]
      | some nv =>
        cases nv with
        | str n =>
          by_cases hn : (n == name) = true
          · simp [scanBuckets, hg, hn, bucketNamed]
          · have hn' : (n == name) = false := by simpa using hn
            simp [scanBuckets, hg, hn', bucketNamed, ih h2]
        | null => simp [scanBuckets, hg, bucketNamed, ih h2]
        | bool bb => simp [scanBuckets, hg, bucketNamed, ih h2]
        | num nn => simp [scanBuckets, hg, bucketNamed, ih h2]
        | arr xs => simp [scanBuckets, hg, bucketNamed, ih h2]
        | obj kvs => simp [scanBuckets, hg, bucketNamed, ih h2]
    | null => simp [isObjB] at h1
    | bool bb => simp [isObjB] at h1
    | num nn => simp [isObjB] at h1
    | str s => simp [isObjB] at h1
    | arr xs => simp [isObjB] at h1

/-! ## Claim theorems -/

/-- C2 (counterexample): on a non-zero exit with stderr `boom`, `run_cli`
returns `CLI Error: boom`, which is not the command stderr itself — the
claimed "result string equal to the command's stderr" fails. -/
theorem run_cli_prefix_counterexample :
    run_cli ⟨1, "", "boom"⟩ = "CLI Error: boom" ∧ run_cli ⟨1, "", "boom"⟩ ≠ "boom" := by
  decide

/-- C2 (amended): `run_cli` always returns normally; on a non-zero exit
the result is the stripped stderr — or the stripped stdout when the
stripped stderr is empty — behind the marker prefix `CLI Error: `; on a
zero exit it is the stripped stdout when non-empty, else the stripped
stderr. -/
theorem run_cli_result_selection (r : ProcResult) :
    (r.exitCode ≠ 0 → pyStrip r.stderr ≠ "" →
        run_cli r = "CLI Error: " ++ pyStrip r.stderr) ∧
    (r.exitCode ≠ 0 → pyStrip r.stderr = "" →
        run_cli r = "CLI Error: " ++ pyStrip r.stdout) ∧
    (r.exitCode = 0 → pyStrip r.stdout ≠ "" → run_cli r = pyStrip r.stdout) ∧
    (r.exitCode = 0 → pyStrip r.stdout = "" → run_cli r = pyStrip r.stderr) := by
  refine ⟨?_, ?_, ?_, ?_⟩ <;> intro h1 h2 <;> simp [run_cli, h1, h2]

/-- C2 witness: a process exiting 2 with stderr `disk full\n` yields the
marker-prefixed stripped stderr. -/
theorem run_cli_result_selection_witness :
    run_cli ⟨2, "", "disk full\n"⟩ = "CLI Error: " ++ pyStrip "disk full\n" :=
  (run_cli_result_selection ⟨2, "", "disk full\n"⟩).1 (by decide) (by decide)

/-- C3: one agent run issues at most `max_iterations = 3` completion
calls; when none of the first three completions contains a Final Answer,
the run ends as `exhausted` after exactly 3 calls and no 4th call is
issued. -/
theorem agent_loop_iteration_bound (complete : Nat → String)
    (h0 : containsFinalAnswer (complete 0) = false)
    (h1 : containsFinalAnswer (complete 1) = false)
    (h2 : containsFinalAnswer (complete 2) = false) :
    agent_run complete = (RunOutcome.exhausted, 3) ∧
    ∀ c : Nat → String, (agent_run c).2 ≤ max_iterations := by
  constructor
  · have s0 : agentSteps complete 3 0 = agentSteps complete 2 1 :=
      agentSteps_step_neg complete 2 0 h0
    have s1 : agentSteps complete 2 1 = agentSteps complete 1 2 :=
      agentSteps_step_neg complete 1 1 h1
    have s2 : agentSteps complete 1 2 = agentSteps complete 0 3 :=
      agentSteps_step_neg complete 0 2 h2
    show agentSteps complete 3 0 = (RunOutcome.exhausted, 3)
    rw [s0, s1, s2]; rfl
  · intro c
    have := agentSteps_calls_le c 3 0
    simpa [agent_run, max_iterations] using this

/-- C3 witness: a model that keeps thinking without a Final Answer
exhausts the run at exactly 3 completion calls. -/
theorem agent_loop_iteration_bound_witness :
    agent_run (fun _ => "Thought: still working") = (RunOutcome.exhausted, 3) :=
  (agent_loop_iteration_bound (fun _ => "Thought: still working")
    (by decide) (by decide) (by decide)).1

/-- C4 (counterexample): when the HTTP transport fails, the
`generate_terraform` handler does not return an Error result — the
exception (modelled by `Except.error`) escapes the tool boundary. -/
theorem generate_terraform_raises_counterexample :
    generate_terraform_code "create a vpc" "deepseek-chat"
        (fun _ => HttpOutcome.raised "connection refused")
      = Except.error ("RequestException: connection refused") := rfl

/-- C4 (amended): `generate_terraform` forwards the prompt to the LLM
behind the pure-code instruction; on a well-formed response it returns
the raw model text, but on any upstream failure (transport error, 4xx/5xx
status, unparseable or malformed body) the exception escapes the tool
handler instead of being normalized into an Error result. -/
theorem generate_terraform_error_propagation (prompt model : String) (out : HttpOutcome) :
    generate_terraform_code prompt model (fun _ => out)
        = deepseek_call (terraform_instruction ++ "\n\n" ++ prompt) model (fun _ => out) ∧
    (∀ s st, raiseForStatus st = false → out = HttpOutcome.got st (Except.ok (mkResponse s)) →
        generate_terraform_code prompt model (fun _ => out) = Except.ok (Json.str s)) ∧
    (upstreamFailure out = true →
        ∃ e, generate_terraform_code prompt model (fun _ => out) = Except.error e) := by
  refine ⟨rfl, ?_, ?_⟩
  · intro s st hst hout
    subst hout
    exact deepseek_ok_of_wellformed _ model s st hst
  · intro hfail
    exact (deepseek_error_iff (terraform_instruction ++ "\n\n" ++ prompt) model out).mpr hfail

/-- C4 witness: a well-formed 200 response yields the raw model text. -/
theorem generate_terraform_error_propagation_witness :
    generate_terraform_code "make a bucket" "deepseek-chat"
        (fun _ => HttpOutcome.got 200 (Except.ok (mkResponse "resource block")))
      = Except.ok (Json.str "resource block") :=
  (generate_terraform_error_propagation "make a bucket" "deepseek-chat"
      (HttpOutcome.got 200 (Except.ok (mkResponse "resource block")))).2.1
    "resource block" 200 (by decide) rfl

/-- C7 (counterexample): a 304 response is a non-success (non-2xx) status,
yet the completion call does not fail — `raise_for_status` only raises
for 4xx/5xx, so a well-formed 304 body is returned as content. -/
theorem deepseek_call_non2xx_counterexample :
    deepseek_call "p" "m" (fun _ => HttpOutcome.got 304 (Except.ok (mkResponse "hi")))
        = Except.ok (Json.str "hi") ∧ is2xx 304 = false :=
  ⟨rfl, rfl⟩

/-- C7 (amended): the completion call raises exactly when the HTTP call
errors, the status is in 400–599, or the body is unparseable or lacks the
`choices[0].message.content` field; every response of the expected shape
whose status is outside 400–599 returns the content string. -/
theorem deepseek_call_failure_characterization (prompt model : String) (out : HttpOutcome) :
    ((∃ e, deepseek_call prompt model (fun _ => out) = Except.error e)
        ↔ upstreamFailure out = true) ∧
    (∀ s st, raiseForStatus st = false → out = HttpOutcome.got st (Except.ok (mkResponse s)) →
        deepseek_call prompt model (fun _ => out) = Except.ok (Json.str s)) := by
  refine ⟨deepseek_error_iff prompt model out, ?_⟩
  intro s st hst hout
  subst hout
  exact deepseek_ok_of_wellformed prompt model s st hst

/-- C7 witness: a well-formed 200 response returns its content string. -/
theorem deepseek_call_failure_characterization_witness :
    deepseek_call "p" "m" (fun _ => HttpOutcome.got 200 (Except.ok (mkResponse "ok")))
      = Except.ok (Json.str "ok") :=
  (deepseek_call_failure_characterization "p" "m"
      (HttpOutcome.got 200 (Except.ok (mkResponse "ok")))).2 "ok" 200 (by decide) rfl

/-- C8: the request payload carries the fixed system message first and the
prompt unchanged as the user message, and parsing a synthetic well-formed
response `\x7bchoices: [\x7bmessage: \x7bcontent: s\x7d\x7d]\x7d` through
the completion call returns exactly `s`. -/
theorem chat_roundtrip_fidelity (model prompt s : String) :
    (mkPayload model prompt).messages
        = [⟨"system", deepseek_system_prompt⟩, ⟨"user", prompt⟩] ∧
    deepseek_call prompt model (fun _ => HttpOutcome.got 200 (Except.ok (mkResponse s)))
        = Except.ok (Json.str s) :=
  ⟨rfl, deepseek_ok_of_wellformed prompt model s 200 (by decide)⟩

/-- C9 (code bug): `agent_api` calls the async `request.json()` without
`await` inside a sync handler, so `body` is a coroutine object and
`body.get("prompt")` raises `AttributeError` before any try/except —
every request to the endpoint, with or without a prompt field, escapes as
a raw unhandled fault, never a structured JSON body. -/
theorem agent_api_unhandled_fault :
    (∀ (body : List (String × String)) (runAgent : String → Except String String),
        agent_api body runAgent = ApiResponse.unhandledFault coroutineGetMsg) ∧
    agent_api [] (fun p => Except.ok p)
        ≠ ApiResponse.jsonBody [("error", "Missing prompt")] ∧
    agent_api [("prompt", "hi")] (fun p => Except.ok p)
        ≠ ApiResponse.jsonBody [("result", "hi")] := by
  refine ⟨fun _ _ => rfl, by decide, by decide⟩

/-- The project-id argument of the VPC listing command is never the word
`region`, whatever the environment holds. -/
theorem projectIdArg_ne_region (x : String) : "project-id=" ++ x ≠ "region" := by
  obtain ⟨xd⟩ := x
  intro hEq
  have hd := congrArg String.data hEq
  rw [data_append,
      show "project-id=".data = ['p','r','o','j','e','c','t','-','i','d','='] from rfl,
      show "region".data = ['r','e','g','i','o','n'] from rfl,
      List.cons_append] at hd
  injection hd with h1 _
  exact absurd h1 (by decide)

/-- The project-id argument of the VPC listing command never carries a
`region=` scope, whatever the environment holds. -/
theorem projectIdArg_region_free (x : String) :
    pyStartsWith "region=" ("project-id=" ++ x) = false := by
  obtain ⟨xd⟩ := x; rfl

/-- C10: `validate_vpc` ignores the `region` parameter — two parameter
mappings agreeing on every key except `region` produce the same result
for every CLI behaviour, and the argument vector it builds carries no
region scope (no `region` word and no `region=` argument). -/
theorem validate_vpc_region_independent
    (params₁ params₂ : List (String × String)) (pid : Option String)
    (cli : List String → ProcResult) (loads : String → Except String Json)
    (h : ∀ k, k ≠ "region" → lookupParam params₁ k = lookupParam params₂ k) :
    validate_vpc params₁ pid cli loads = validate_vpc params₂ pid cli loads ∧
    ∀ arg ∈ vpc_list_command pid,
      arg ≠ "region" ∧ pyStartsWith "region=" arg = false := by
  constructor
  · have hc := h "cidr" (by decide)
    simp only [validate_vpc, hc]
  · intro arg harg
    simp only [vpc_list_command, List.mem_cons, List.not_mem_nil, or_false] at harg
    rcases harg with rfl | rfl | rfl | rfl | rfl | rfl | rfl
    · exact ⟨by decide, by decide⟩
    · exact ⟨by decide, by decide⟩
    · exact ⟨by decide, by decide⟩
    · exact ⟨by decide, by decide⟩
    · exact ⟨projectIdArg_ne_region _, projectIdArg_region_free _⟩
    · exact ⟨by decide, by decide⟩
    · exact ⟨by decide, by decide⟩

/-- C10 witness: two parameter mappings differing only in `region` give
identical results. -/
theorem validate_vpc_region_independent_witness :
    validate_vpc [("cidr", "10.0.0.0/8"), ("region", "fr-par")] (some "prj")
        (fun _ => ⟨0, "[]", ""⟩) (fun _ => Except.ok (Json.arr []))
      = validate_vpc [("cidr", "10.0.0.0/8"), ("region", "nl-ams")] (some "prj")
        (fun _ => ⟨0, "[]", ""⟩) (fun _ => Except.ok (Json.arr [])) :=
  (validate_vpc_region_independent _ _ (some "prj")
    (fun _ => ⟨0, "[]", ""⟩) (fun _ => Except.ok (Json.arr []))
    (by
      intro k hk
      have hb : (("region" : String) == k) = false := by
        rw [beq_eq_false_iff_ne]
        exact fun he => hk he.symm
      simp [lookupParam, hb])).1

/-- C6: for a resource type other than `vpc` and `bucket`,
`list_resources` returns the error mapping and `validate_resource`
returns the not-implemented error mapping; both results are independent
of the CLI and JSON boundaries, i.e. no CLI invocation can influence
them (and, being total functions, they never raise). -/
theorem unsupported_resource_type_errors (rt region : String)
    (params : List (String × String)) (pid : Option String)
    (cli cli' : List String → ProcResult) (loads loads' : String → Except String Json)
    (h1 : rt ≠ "vpc") (h2 : rt ≠ "bucket") :
    list_resources rt region pid cli = LResult.err ("Unsupported resource type: " ++ rt) ∧
    list_resources rt region pid cli = list_resources rt region pid cli' ∧
    validate_resource rt params pid cli loads
        = VResult.err ("Validation for resource type " ++ sq ++ rt ++ sq
            ++ " not implemented.") ∧
    validate_resource rt params pid cli loads
        = validate_resource rt params pid cli' loads' := by
  refine ⟨?_, ?_, ?_, ?_⟩ <;> simp [list_resources, validate_resource, h1, h2]

/-- C6 witness: the resource type `cluster` yields both error mappings. -/
theorem unsupported_resource_type_errors_witness :
    list_resources "cluster" "fr-par" (some "prj") (fun _ => ⟨0, "", ""⟩)
        = LResult.err ("Unsupported resource type: " ++ "cluster") ∧
    validate_resource "cluster" [] (some "prj") (fun _ => ⟨0, "", ""⟩)
        (fun _ => Except.ok Json.null)
        = VResult.err ("Validation for resource type " ++ sq ++ "cluster" ++ sq
            ++ " not implemented.") := by
  have h := unsupported_resource_type_errors "cluster" "fr-par" [] (some "prj")
    (fun _ => ⟨0, "", ""⟩) (fun _ => ⟨0, "", ""⟩)
    (fun _ => Except.ok Json.null) (fun _ => Except.ok Json.null)
    (by decide) (by decide)
  exact ⟨h.1, h.2.2.1⟩

/-- C1 (counterexample): a parameters mapping that contains the key
`cidr` with an empty value is treated as missing (Python truthiness), so
with a listing containing no subnet at all the function returns the
error mapping instead of the claimed `valid: true`. -/
theorem validate_vpc_empty_cidr_counterexample :
    validate_vpc [("cidr", "")] (some "prj") (fun _ => ⟨0, "[]", ""⟩)
        (fun _ => Except.ok (Json.arr [])) = VResult.err missingCidrMsg ∧
    listingHasCidr "" (Json.arr []) = false ∧
    validate_vpc [("cidr", "")] (some "prj") (fun _ => ⟨0, "[]", ""⟩)
        (fun _ => Except.ok (Json.arr [])) ≠ VResult.valid := by
  decide

/-- C1 (amended): for every parameters mapping whose `cidr` value is a
non-empty string, `validate_vpc` (the `vpc` branch of
`validate_resource`) returns the error mapping when the CLI call fails
(its output carries the `CLI Error` marker) or when the output is not
parseable JSON, and on a well-formed parsed listing returns
`valid: false` with a reason embedding the CIDR exactly when some listed
network has a subnet with that CIDR, else `valid: true`. -/
theorem validate_vpc_cidr_conflict
    (params : List (String × String)) (pid : Option String)
    (cli : List String → ProcResult) (loads : String → Except String Json)
    (cidr output : String)
    (hc : lookupParam params "cidr" = some cidr) (hne : cidr ≠ "")
    (ho : output = run_cli (cli (vpc_list_command pid))) :
    (pyStartsWith "CLI Error" output = true →
        validate_vpc params pid cli loads = VResult.err output) ∧
    (∀ e, pyStartsWith "CLI Error" output = false → loads output = Except.error e →
        validate_vpc params pid cli loads = VResult.err ("JSON parsing error: " ++ e)) ∧
    (∀ j, pyStartsWith "CLI Error" output = false → loads output = Except.ok j →
        wfVpcListing j = true →
        (listingHasCidr cidr j = true →
            ∃ r, validate_vpc params pid cli loads = VResult.invalid r ∧
              ∃ pre post, r = pre ++ cidr ++ post) ∧
        (listingHasCidr cidr j = false →
            validate_vpc params pid cli loads = VResult.valid)) := by
  subst ho
  refine ⟨?_, ?_, ?_⟩
  · intro hpre
    simp [validate_vpc, hc, hne, hpre]
  · intro e hpre hload
    simp [validate_vpc, hc, hne, hpre, hload]
  · intro j hpre hload hwf
    cases j with
    | arr ns =>
      have hns : ns.all netWF = true := by simpa [wfVpcListing] using hwf
      obtain ⟨hT, hF⟩ := scanNets_spec cidr ns hns
      constructor
      · intro hAny
        have hAny' : ns.any (netHasCidr cidr) = true := by
          simpa [listingHasCidr] using hAny
        obtain ⟨r, hscan, post, hpost⟩ := hT hAny'
        refine ⟨r, ?_, "CIDR ", post, hpost⟩
        simp [validate_vpc, hc, hne, hpre, hload, iterNetworks, hscan]
      · intro hAny
        have hAny' : ns.any (netHasCidr cidr) = false := by
          simpa [listingHasCidr] using hAny
        simp [validate_vpc, hc, hne, hpre, hload, iterNetworks, hF hAny']
    | null => simp [wfVpcListing] at hwf
    | bool b => simp [wfVpcListing] at hwf
    | num n => simp [wfVpcListing] at hwf
    | str s => simp [wfVpcListing] at hwf
    | obj kvs => simp [wfVpcListing] at hwf

/-- A concrete well-formed VPC listing with one network carrying the
sample CIDR, used by the C1 witness. -/
def sampleVpcListing : Json :=
  Json.arr [Json.obj [("name", Json.str "net1"),
    ("subnets", Json.arr [Json.obj [("cidr", Json.str "10.0.0.0/24")]])]]

/-- C1 witness: with a listing containing the CIDR, validation fails with
a reason embedding that CIDR. -/
theorem validate_vpc_cidr_conflict_witness :
    ∃ r, validate_vpc [("cidr", "10.0.0.0/24")] (some "prj")
        (fun _ => ⟨0, "x", ""⟩) (fun _ => Except.ok sampleVpcListing)
        = VResult.invalid r ∧ ∃ pre post, r = pre ++ "10.0.0.0/24" ++ post := by
  have h := validate_vpc_cidr_conflict [("cidr", "10.0.0.0/24")] (some "prj")
    (fun _ => ⟨0, "x", ""⟩) (fun _ => Except.ok sampleVpcListing)
    "10.0.0.0/24" (run_cli ⟨0, "x", ""⟩) (by decide) (by decide) rfl
  exact (h.2.2 sampleVpcListing (by decide) rfl (by decide)).1 (by decide)

/-- C5 (counterexample): a parameters mapping that contains the key
`name` with an empty value is treated as missing (Python truthiness), so
with an empty listing the function returns the error mapping instead of
the claimed `valid: true`. -/
theorem validate_bucket_empty_name_counterexample :
    validate_object_storage [("name", "")] (fun _ => ⟨0, "[]", ""⟩)
        (fun _ => Except.ok (Json.arr [])) = VResult.err missingNameMsg ∧
    listingHasBucket "" (Json.arr []) = false ∧
    validate_object_storage [("name", "")] (fun _ => ⟨0, "[]", ""⟩)
        (fun _ => Except.ok (Json.arr [])) ≠ VResult.valid := by
  decide

/-- C5 (amended): for every parameters mapping whose `name` value is a
non-empty string, `validate_object_storage` (the `bucket` branch of
`validate_resource`) returns the error mapping on a CLI failure or an
unparseable output, and on a well-formed parsed listing returns
`valid: false` if and only if a bucket object with that name is present,
else `valid: true`. -/
theorem validate_bucket_name_conflict
    (params : List (String × String))
    (cli : List String → ProcResult) (loads : String → Except String Json)
    (name region output : String)
    (hn : lookupParam params "name" = some name) (hne : name ≠ "")
    (hr : (lookupParam params "region").getD "fr-par" = region)
    (ho : output = run_cli (cli (bucket_list_command region))) :
    (pyStartsWith "CLI Error" output = true →
        validate_object_storage params cli loads = VResult.err output) ∧
    (∀ e, pyStartsWith "CLI Error" output = false → loads output = Except.error e →
        validate_object_storage params cli loads
          = VResult.err ("JSON parsing error: " ++ e)) ∧
    (∀ j, pyStartsWith "CLI Error" output = false → loads output = Except.ok j →
        wfBucketListing j = true →
        (validate_object_storage params cli loads
            = VResult.invalid (bucketReason name region)
          ↔ listingHasBucket name j = true) ∧
        (listingHasBucket name j = false →
            validate_object_storage params cli loads = VResult.valid)) := by
  subst hr
  subst ho
  refine ⟨?_, ?_, ?_⟩
  · intro hpre
    simp [validate_object_storage, hn, hne, hpre]
  · intro e hpre hload
    simp [validate_object_storage, hn, hne, hpre, hload]
  · intro j hpre hload hwf
    cases j with
    | arr bs =>
      have hbs : bs.all isObjB = true := by simpa [wfBucketListing] using hwf
      have hscan := scanBuckets_spec name ((lookupParam params "region").getD "fr-par") bs hbs
      by_cases hAny : bs.any (bucketNamed name) = true
      · have hres : validate_object_storage params cli loads
            = VResult.invalid (bucketReason name ((lookupParam params "region").getD "fr-par")) := by
          simp [validate_object_storage, hn, hne, hpre, hload, iterBuckets, hscan, hAny]
        refine ⟨⟨fun _ => by simpa [listingHasBucket] using hAny, fun _ => hres⟩, ?_⟩
        intro hAnyF
        have : bs.any (bucketNamed name) = false := by
          simpa [listingHasBucket] using hAnyF
        rw [this] at hAny
        exact absurd hAny (by decide)
      · have hAny' : bs.any (bucketNamed name) = false := by simpa using hAny
        have hres : validate_object_storage params cli loads = VResult.valid := by
          simp [validate_object_storage, hn, hne, hpre, hload, iterBuckets, hscan, hAny']
        refine ⟨⟨fun hinv => ?_, fun hb => ?_⟩, fun _ => hres⟩
        · rw [hres] at hinv
          exact absurd hinv (by simp)
        · have hb' : bs.any (bucketNamed name) = true := by
            simpa [listingHasBucket] using hb
          rw [hAny'] at hb'
          exact absurd hb' (by decide)
    | null => simp [wfBucketListing] at hwf
    | bool b => simp [wfBucketListing] at hwf
    | num n => simp [wfBucketListing] at hwf
    | str s => simp [wfBucketListing] at hwf
    | obj kvs => simp [wfBucketListing] at hwf

/-- C5 witness: a listing containing a bucket named `my-bucket` makes
validation of that name fail with the exact reason string. -/
theorem validate_bucket_name_conflict_witness :
    validate_object_storage [("name", "my-bucket")] (fun _ => ⟨0, "x", ""⟩)
        (fun _ => Except.ok (Json.arr [Json.obj [("name", Json.str "my-bucket")]]))
      = VResult.invalid (bucketReason "my-bucket" "fr-par") := by
  have h := validate_bucket_name_conflict [("name", "my-bucket")]
    (fun _ => ⟨0, "x", ""⟩)
    (fun _ => Except.ok (Json.arr [Json.obj [("name", Json.str "my-bucket")]]))
    "my-bucket" "fr-par" (run_cli ⟨0, "x", ""⟩) (by decide) (by decide) (by decide) rfl
  exact ((h.2.2 (Json.arr [Json.obj [("name", Json.str "my-bucket")]])
    (by decide) rfl (by decide)).1).mpr (by decide)

end DemoIac
